import Mathlib

/-!
Shallow embedding of the ultra-bingo frontend's realtime game-state core.

The embedding translates, from the source:
* the game-state record and the socket.io event handlers of
  `src/context/SocketContext.jsx` (the `setGameState` updater of each
  `newSocket.on(...)` registration becomes one case of a pure reducer);
* the single `continueMessageTimeoutRef` auto-hide timer of the
  `winner-rejected` handler, as an optional pending-countdown value;
* the synchronous guard prefix of `handlePurchase` in `src/pages/Home.jsx`
  (everything before its first `await`);
* `createPaymentFetch` and `getUSDCBalance` of the x402 service module;
* `rejectWinner` of the raw-WebSocket transport variant.

Conventions: the React `prev` state is never null (it is initialised by
`useState`), so the JavaScript guards of the form `prev?.field || []` are
translated as plain field access.  USDC amounts are carried in atomic
units of 10^-6 USDC (the JavaScript converts via `Math.round(amount * 1e6)`
before comparing).  JavaScript `||` fallback on a string field is falsy on
the empty string; `jsOrString` reproduces that.
-/

namespace UltraBingo

/-- Game status, from the comment in SocketContext.jsx:
waiting, playing, paused, ended. -/
inductive Status where
  | waiting
  | playing
  | paused
  | ended
  deriving DecidableEq, Repr

/-- Confirmed-winner record; the reducer stores the payload object opaquely,
we keep the cardId it carries. -/
structure Winner where
  cardId : Nat
  deriving DecidableEq, Repr

/-- Payload of a potential-winner event.  The handler keys it by `cardId`
and stores the whole object; the rest of the payload is abstracted as
`info`. -/
structure PotentialWinner where
  cardId : Nat
  info : Nat
  deriving DecidableEq, Repr

/-- The gameState record of SocketContext.jsx (the fields the event
handlers read or write). -/
structure GameState where
  status : Status
  gameMode : String
  calledNumbers : List Nat
  currentNumber : Option Nat
  winner : Option Winner
  potentialWinners : List PotentialWinner
  canPurchase : Bool
  lastRejectedWinner : Option Nat
  showContinueMessage : Bool
  deriving DecidableEq, Repr

/-- The initial value passed to useState in SocketContext.jsx. -/
def initialGameState : GameState :=
  { status := .waiting
    gameMode := "fullCard"
    calledNumbers := []
    currentNumber := none
    winner := none
    potentialWinners := []
    canPurchase := true
    lastRejectedWinner := none
    showContinueMessage := false }

/-- JavaScript `a || b` where `a` is an optional string field: the empty
string is falsy and also falls through to `b`. -/
def jsOrString (a : Option String) (b : String) : String :=
  match a with
  | some s => if s = "" then b else s
  | none => b

/-- Canonical inbound events, one constructor per `newSocket.on` game-event
handler of SocketContext.jsx (the `game-state` full-snapshot merge is not
modelled; no claim concerns it).  Constructor arguments are the payload
fields the corresponding handler reads. -/
inductive Event where
  | numberCalled (number : Nat)
  | numberUncalled (number : Nat) (currentNumber : Option Nat)
      (calledNumbers : Option (List Nat))
  | gameStarted (gameMode : Option String)
  | gameModeChanged (mode : String)
  | gamePaused
  | gameResumed
  | gameEnded (winner : Option Winner)
  | gameCleared
  | winnerAnnounced (winner : Option Winner)
  | potentialWinner (data : PotentialWinner)
  | winnerRejected (cardId : Nat)
  deriving DecidableEq, Repr

/-- The state-updater part of each SocketContext.jsx handler, as a pure
reducer: previous gameState and event payload to next gameState.  Each
case is the body of the `setGameState((prev) => ...)` call of the
matching `newSocket.on(...)` registration. -/
def handleEvent (prev : GameState) : Event → GameState
  | .numberCalled number =>
      { prev with
        currentNumber := some number
        calledNumbers := prev.calledNumbers ++ [number] }
  | .numberUncalled number currentNumber calledNumbers =>
      { prev with
        currentNumber := currentNumber
        calledNumbers :=
          calledNumbers.getD (prev.calledNumbers.filter (fun n => n != number)) }
  | .gameStarted gameMode =>
      { prev with
        status := .playing
        calledNumbers := []
        currentNumber := none
        winner := none
        potentialWinners := []
        canPurchase := false
        gameMode := jsOrString gameMode (jsOrString (some prev.gameMode) "fullCard") }
  | .gameModeChanged mode =>
      { prev with gameMode := mode }
  | .gamePaused =>
      { prev with status := .paused }
  | .gameResumed =>
      { prev with status := .playing }
  | .gameEnded winner =>
      { prev with
        status := .ended
        winner := winner
        potentialWinners := []
        canPurchase := true }
  | .gameCleared =>
      { prev with
        status := .waiting
        calledNumbers := []
        currentNumber := none
        winner := none
        potentialWinners := []
        canPurchase := true
        showContinueMessage := false }
  | .winnerAnnounced winner =>
      { prev with
        winner := winner
        potentialWinners := [] }
  | .potentialWinner data =>
      let currentWinners := prev.potentialWinners
      if currentWinners.any (fun w => w.cardId == data.cardId) then prev
      else
        { prev with
          potentialWinners := currentWinners ++ [data]
          showContinueMessage := false }
  | .winnerRejected cardId =>
      { prev with
        potentialWinners := prev.potentialWinners.filter (fun w => w.cardId != cardId)
        lastRejectedWinner := some cardId
        showContinueMessage := true }

/-- Applying a whole sequence of number-called events in arrival order. -/
def applyNumberCalls (s : GameState) (ns : List Nat) : GameState :=
  ns.foldl (fun st n => handleEvent st (.numberCalled n)) s

/-- Game state together with the single continueMessageTimeoutRef of
SocketContext.jsx: `some r` means the auto-hide setTimeout scheduled by
the winner-rejected handler is pending with r milliseconds left; `none`
means no timer is pending. -/
structure SocketState where
  game : GameState
  continueMessageTimeout : Option Nat
  deriving DecidableEq, Repr

/-- Full effect of one inbound event.  Only the winner-rejected handler
touches the timeout ref: it clears any existing timeout and schedules a
fresh 5000 ms auto-hide.  Every other handler, including potential-winner,
leaves the ref alone. -/
def handleEventTimed (s : SocketState) (e : Event) : SocketState :=
  match e with
  | .winnerRejected cardId =>
      { game := handleEvent s.game (.winnerRejected cardId)
        continueMessageTimeout := some 5000 }
  | _ => { s with game := handleEvent s.game e }

/-- Passage of d milliseconds with no inbound event: if the pending
auto-hide timer expires it fires, setting showContinueMessage to false and
nulling the ref. -/
def elapse (s : SocketState) (d : Nat) : SocketState :=
  match s.continueMessageTimeout with
  | none => s
  | some r =>
      if r ≤ d then
        { game := { s.game with showContinueMessage := false }
          continueMessageTimeout := none }
      else { s with continueMessageTimeout := some (r - d) }

/-- Allowed purchase quantities, from config.fibonacciQuantities. -/
def fibonacciQuantities : List Nat := [1, 2, 3, 5, 8, 13, 21, 34]

/-- The session flags handlePurchase (Home.jsx) consults synchronously. -/
structure PurchaseEnv where
  isLoggedIn : Bool
  hasWalletProvider : Bool
  isWalletReady : Bool
  deriving DecidableEq, Repr

/-- How the synchronous prefix of handlePurchase exits: each early-return
branch in source order, or proceed into the async purchase flow (the first
await, and with it any network activity, lies strictly after proceed). -/
inductive PurchaseExit where
  | alreadyInFlight
  | loginRequired
  | invalidQuantity
  | invalidFibQuantity
  | noWalletProvider
  | walletNotReady
  | proceed
  deriving DecidableEq, Repr

/-- Observable outcome of the synchronous prefix of handlePurchase:
the value of isPurchasingRef.current on exit, the argument of the setError
call if one was made, whether openLoginModal was called, and which branch
exited. -/
structure PurchaseSyncResult where
  isPurchasing : Bool
  errorSet : Option String
  openedLoginModal : Bool
  exit : PurchaseExit
  deriving DecidableEq, Repr

/-- The synchronous prefix of handlePurchase in Home.jsx, from the
isPurchasingRef guard up to (not including) the first await: the guard
check-and-set, the login check, the `!quantity || quantity < 1` silent
return, the fibonacciQuantities allow-list check with its setError, and
the wallet-provider and wallet-ready checks. -/
def handlePurchaseSync (isPurchasingRef : Bool) (env : PurchaseEnv)
    (quantity : Nat) : PurchaseSyncResult :=
  if isPurchasingRef then
    { isPurchasing := isPurchasingRef
      errorSet := none
      openedLoginModal := false
      exit := .alreadyInFlight }
  else if ¬env.isLoggedIn then
    { isPurchasing := false
      errorSet := none
      openedLoginModal := true
      exit := .loginRequired }
  else if quantity < 1 then
    { isPurchasing := false
      errorSet := none
      openedLoginModal := false
      exit := .invalidQuantity }
  else if ¬(fibonacciQuantities.contains quantity) then
    { isPurchasing := false
      errorSet := some "Cantidad invalida. Opciones validas: 1, 2, 3, 5, 8, 13, 21, 34"
      openedLoginModal := false
      exit := .invalidFibQuantity }
  else if ¬env.hasWalletProvider then
    { isPurchasing := false
      errorSet := some "No se detecto wallet. Por favor instala MetaMask."
      openedLoginModal := false
      exit := .noWalletProvider }
  else if ¬env.isWalletReady then
    { isPurchasing := false
      errorSet := some "Wallet no conectada. Por favor conecta tu wallet primero."
      openedLoginModal := false
      exit := .walletNotReady }
  else
    { isPurchasing := true
      errorSet := none
      openedLoginModal := false
      exit := .proceed }

/-- Whether a given exit of the synchronous prefix leads to any network
request: only proceed does, since every fetch and wallet RPC of
handlePurchase comes after the synchronous prefix. -/
def issuesNetworkRequest : PurchaseExit → Bool
  | .proceed => true
  | _ => false

/-- The payment-requirement object a 402 body carries (paymentInfo in v1,
the first accepts entry in v2); only the amount field matters to the
control flow modelled here, the signing inputs are abstracted away. -/
structure PaymentInfo where
  amount : Nat
  deriving DecidableEq, Repr

/-- An HTTP response as the payment fetch wrapper inspects it: the status
code and the parsed JSON body, where the outer `none` is an unreadable
body and the inner option is the presence of a payment requirement. -/
structure HttpResponse where
  status : Nat
  jsonBody : Option (Option PaymentInfo)
  deriving DecidableEq, Repr

/-- The error exits of the payment fetch wrapper: unreadable 402 body,
402 body without payment info, or a failure while signing (wallet error,
user rejection). -/
inductive PaymentFetchError where
  | unreadablePaymentInfo
  | missingPaymentInfo
  | signingFailed
  deriving DecidableEq, Repr

/-- The fetch wrapper returned by createPaymentFetch in the x402 service
module.  `server b` is the response to the logical request, with b telling
whether the X-PAYMENT header was attached; `sign` is
signPaymentAuthorization, which may fail.  The result pairs the wrapper's
return (or thrown error) with the trace of requests issued, each recorded
by its X-PAYMENT header presence.  Source flow: first request without
payment; any non-402 status is returned as-is; on 402 read the body, take
paymentInfo or the first accepts entry, sign, and resend exactly once with
the X-PAYMENT header, returning the second response whatever its status. -/
def paymentFetch (server : Bool → HttpResponse)
    (sign : PaymentInfo → Except Unit Nat) :
    Except PaymentFetchError HttpResponse × List Bool :=
  let firstResponse := server false
  if firstResponse.status ≠ 402 then
    (.ok firstResponse, [false])
  else
    match firstResponse.jsonBody with
    | none => (.error .unreadablePaymentInfo, [false])
    | some body =>
        match body with
        | none => (.error .missingPaymentInfo, [false])
        | some paymentInfo =>
            match sign paymentInfo with
            | .error _ => (.error .signingFailed, [false])
            | .ok _ => (.ok (server true), [false, true])

/-- How handlePurchase in Home.jsx categorises the response the payment
fetch wrapper returns: status 402 is the terminal payment-rejected error
branch (setError and return), any other non-2xx status throws, a 2xx
status is the success path. -/
inductive PurchaseOutcome where
  | paymentRejected
  | httpError
  | success
  deriving DecidableEq, Repr

/-- The response dispatch of handlePurchase after the payment fetch. -/
def purchaseResponseOutcome (status : Nat) : PurchaseOutcome :=
  if status = 402 then .paymentRejected
  else if ¬(200 ≤ status ∧ status < 300) then .httpError
  else .success

/-- The wallet environment getUSDCBalance (x402 service module) reads:
the provider presence, the results of the eth_accounts, eth_chainId and
eth_call (balanceOf) requests — each of which may throw — and the id of
the chain selected for payment.  Balances are in atomic 10^-6 USDC
units. -/
structure WalletEnv where
  hasProvider : Bool
  accountsResult : Except Unit (List String)
  chainIdResult : Except Unit Nat
  balanceResult : Except Unit Nat
  targetChainId : Nat

/-- The record getUSDCBalance resolves with: the raw balance, whether the
check was skipped, and the hasEnough predicate over an amount in atomic
units. -/
structure USDCBalanceResult where
  balance : Nat
  hasEnough : Nat → Bool
  skipped : Bool

/-- The skip result getUSDCBalance falls back to whenever it cannot make
a real check: hasEnough is constantly true. -/
def skippedBalance : USDCBalanceResult :=
  { balance := 0, hasEnough := fun _ => true, skipped := true }

/-- getUSDCBalance from the x402 service module: no provider, no
connected account, a wrong current chain, and any thrown wallet request
all resolve with the skip result (the try/catch turns every throw into
it); only the full happy path produces a real balance with
hasEnough comparing against it. -/
def getUSDCBalance (env : WalletEnv) : USDCBalanceResult :=
  if ¬env.hasProvider then skippedBalance
  else
    match env.accountsResult with
    | .error _ => skippedBalance
    | .ok accounts =>
        if accounts.isEmpty then skippedBalance
        else
          match env.chainIdResult with
          | .error _ => skippedBalance
          | .ok currentChainIdNum =>
              if currentChainIdNum ≠ env.targetChainId then skippedBalance
              else
                match env.balanceResult with
                | .error _ => skippedBalance
                | .ok balanceWei =>
                    { balance := balanceWei
                      hasEnough := fun amount => decide (amount ≤ balanceWei)
                      skipped := false }

/-- Outbound effects available to the raw-WebSocket transport variant's
admin functions: a message sent over the WebSocket or a REST call. -/
inductive WsOutbound where
  | wsMessage (type : String)
  | restCall (endpoint : String)
  deriving DecidableEq, Repr

/-- rejectWinner of the raw-WebSocket transport variant: a purely local
state update that filters the cardId out of potentialWinners and sets
showContinueMessage, returning the new socket state and the (empty) list
of outbound effects.  It touches neither lastRejectedWinner nor the
auto-hide timeout ref. -/
def wsRejectWinner (s : SocketState) (cardId : Nat) :
    SocketState × List WsOutbound :=
  ({ s with
      game :=
        { s.game with
          potentialWinners :=
            s.game.potentialWinners.filter (fun w => w.cardId != cardId)
          showContinueMessage := true } }, [])

/-- startGame of the raw-WebSocket transport variant, for contrast: it
issues a REST call. -/
def wsStartGame (s : SocketState) : SocketState × List WsOutbound :=
  (s, [.restCall "/api/admin/game/start"])

/-- The calledNumbers list produced by a sequence of number-called events
is the previous list with the event numbers appended in order: the handler
appends unconditionally. -/
theorem applyNumberCalls_calledNumbers (ns : List Nat) (s : GameState) :
    (applyNumberCalls s ns).calledNumbers = s.calledNumbers ++ ns := by
  induction ns generalizing s with
  | nil => simp [applyNumberCalls]
  | cons n ns ih =>
      have h := ih (handleEvent s (.numberCalled n))
      simp only [applyNumberCalls, List.foldl_cons] at h ⊢
      rw [h]
      simp [handleEvent]

/-- C1, counterexample: the number-called handler appends without a
membership check, so replaying a numberCalled event is not a no-op: from
the initial state, two numberCalled 5 events yield calledNumbers = [5, 5],
a different state from one event. -/
theorem numberCalled_not_idempotent_counterexample :
    handleEvent (handleEvent initialGameState (.numberCalled 5))
        (.numberCalled 5) ≠
      handleEvent initialGameState (.numberCalled 5) := by
  decide

/-- C1, amended: replaying an identical event twice equals applying it once
for potentialWinner and numberUncalled events, and a potentialWinner event
whose cardId is already in potentialWinners leaves the state unchanged;
numberCalled is not idempotent: a replay appends its number to
calledNumbers a second time. -/
theorem event_replay_idempotence (s : GameState) :
    (∀ d : PotentialWinner,
      handleEvent (handleEvent s (.potentialWinner d)) (.potentialWinner d) =
        handleEvent s (.potentialWinner d)) ∧
    (∀ (number : Nat) (currentNumber : Option Nat)
        (calledNumbers : Option (List Nat)),
      handleEvent
          (handleEvent s (.numberUncalled number currentNumber calledNumbers))
          (.numberUncalled number currentNumber calledNumbers) =
        handleEvent s (.numberUncalled number currentNumber calledNumbers)) ∧
    (∀ d : PotentialWinner,
      s.potentialWinners.any (fun w => w.cardId == d.cardId) = true →
        handleEvent s (.potentialWinner d) = s) ∧
    (∀ n : Nat,
      (handleEvent (handleEvent s (.numberCalled n))
          (.numberCalled n)).calledNumbers = s.calledNumbers ++ [n, n]) := by
  refine ⟨?_, ?_, ?_, ?_⟩
  · intro d
    by_cases h : s.potentialWinners.any (fun w => w.cardId == d.cardId)
    · simp [handleEvent, h]
    · simp [handleEvent, h, List.any_append]
  · intro number currentNumber calledNumbers
    cases calledNumbers with
    | none => simp [handleEvent, List.filter_filter]
    | some l => simp [handleEvent]
  · intro d h
    simp [handleEvent, h]
  · intro n
    simp [handleEvent]

/-- C1, witness: a potentialWinner event whose cardId 7 is already pending
leaves the state unchanged. -/
theorem event_replay_idempotence_witness :
    handleEvent { initialGameState with potentialWinners := [⟨7, 0⟩] }
        (.potentialWinner ⟨7, 3⟩) =
      { initialGameState with potentialWinners := [⟨7, 0⟩] } :=
  (event_replay_idempotence
    { initialGameState with potentialWinners := [⟨7, 0⟩] }).2.2.1 ⟨7, 3⟩
    (by decide)

/-- C2, counterexample: a sequence of numberCalled events can leave
duplicates in calledNumbers: calling 5 twice from the initial state yields
calledNumbers = [5, 5]. -/
theorem calledNumbers_duplicates_counterexample :
    ¬ (applyNumberCalls initialGameState [5, 5]).calledNumbers.Nodup := by
  decide

/-- C2, amended: the handler appends every event's number unconditionally,
so calledNumbers after a sequence of numberCalled events from the initial
state is exactly the event numbers in order; when those numbers are
pairwise distinct and each lies in 1..75, calledNumbers has no duplicates
and its length is at most 75. -/
theorem calledNumbers_nodup_of_distinct_calls (ns : List Nat)
    (hnd : ns.Nodup) (hrange : ∀ n ∈ ns, 1 ≤ n ∧ n ≤ 75) :
    (applyNumberCalls initialGameState ns).calledNumbers.Nodup ∧
    (applyNumberCalls initialGameState ns).calledNumbers.length ≤ 75 := by
  have h := applyNumberCalls_calledNumbers ns initialGameState
  have hinit : initialGameState.calledNumbers = [] := rfl
  rw [hinit, List.nil_append] at h
  rw [h]
  refine ⟨hnd, ?_⟩
  have hsub : ns.toFinset ⊆ Finset.Icc 1 75 := by
    intro x hx
    rw [List.mem_toFinset] at hx
    exact Finset.mem_Icc.mpr (hrange x hx)
  have hcard := Finset.card_le_card hsub
  rw [List.toFinset_card_of_nodup hnd] at hcard
  simpa using hcard

/-- C2, witness: three distinct in-range calls give a duplicate-free
calledNumbers of length at most 75. -/
theorem calledNumbers_nodup_witness :
    (applyNumberCalls initialGameState [17, 3, 75]).calledNumbers.Nodup ∧
    (applyNumberCalls initialGameState [17, 3, 75]).calledNumbers.length ≤ 75 :=
  calledNumbers_nodup_of_distinct_calls [17, 3, 75] (by decide) (by decide)

/-- C3: a gameStarted event always produces status = playing,
calledNumbers = [], currentNumber = null, winner = null,
potentialWinners = [] and canPurchase = false, for every prior state and
payload. -/
theorem gameStarted_resets (s : GameState) (gameMode : Option String) :
    (handleEvent s (.gameStarted gameMode)).status = .playing ∧
    (handleEvent s (.gameStarted gameMode)).calledNumbers = [] ∧
    (handleEvent s (.gameStarted gameMode)).currentNumber = none ∧
    (handleEvent s (.gameStarted gameMode)).winner = none ∧
    (handleEvent s (.gameStarted gameMode)).potentialWinners = [] ∧
    (handleEvent s (.gameStarted gameMode)).canPurchase = false := by
  simp [handleEvent]

/-- C4: every handler that sets the winner field (gameEnded,
winnerAnnounced) or transitions status to waiting or playing (gameCleared,
gameStarted) leaves potentialWinners empty, for every prior state. -/
theorem winner_handlers_clear_potentialWinners (s : GameState)
    (w w2 : Option Winner) (gm : Option String) :
    (handleEvent s (.gameEnded w)).potentialWinners = [] ∧
    (handleEvent s (.winnerAnnounced w2)).potentialWinners = [] ∧
    (handleEvent s .gameCleared).potentialWinners = [] ∧
    (handleEvent s (.gameStarted gm)).potentialWinners = [] := by
  simp [handleEvent]

/-- C5, counterexample: after winnerRejected 1 on a state with pending
claims 1 and 2, a potentialWinner event for the still-pending cardId 2 is
swallowed by the duplicate check and leaves showContinueMessage true, and a
potentialWinner event for a fresh cardId 3 does not cancel the pending
auto-hide timer: the timeout ref is still set afterwards. -/
theorem winnerRejected_cancel_counterexample :
    (handleEventTimed
        (handleEventTimed
          ⟨{ initialGameState with
              potentialWinners := [⟨1, 0⟩, ⟨2, 0⟩]
              status := .playing }, none⟩
          (.winnerRejected 1))
        (.potentialWinner ⟨2, 5⟩)).game.showContinueMessage = true ∧
    (handleEventTimed
        (handleEventTimed
          ⟨{ initialGameState with
              potentialWinners := [⟨1, 0⟩, ⟨2, 0⟩]
              status := .playing }, none⟩
          (.winnerRejected 1))
        (.potentialWinner ⟨3, 0⟩)).continueMessageTimeout ≠ none := by
  decide

/-- C5, amended: winnerRejected removes the rejected cardId from
potentialWinners, sets lastRejectedWinner to it and showContinueMessage to
true immediately, and schedules the single 5000 ms auto-hide (replacing
any prior pending timer, so at most one is pending); with no superseding
event the flag is false once 5000 ms elapse, the timer then being spent; a
potentialWinner event whose cardId is not already pending immediately
forces showContinueMessage to false but does not cancel the pending
auto-hide timer (which remains scheduled and on expiry merely re-sets the
already-false flag); a potentialWinner event whose cardId is still pending
leaves the state, including showContinueMessage, unchanged. -/
theorem winnerRejected_continue_message (s : SocketState) (c : Nat)
    (hmem : s.game.potentialWinners.any (fun w => w.cardId == c) = true) :
    (∀ w ∈ (handleEventTimed s (.winnerRejected c)).game.potentialWinners,
      w.cardId ≠ c) ∧
    (handleEventTimed s (.winnerRejected c)).game.potentialWinners.length <
      s.game.potentialWinners.length ∧
    (handleEventTimed s (.winnerRejected c)).game.lastRejectedWinner = some c ∧
    (handleEventTimed s (.winnerRejected c)).game.showContinueMessage = true ∧
    (handleEventTimed s (.winnerRejected c)).continueMessageTimeout =
      some 5000 ∧
    (elapse (handleEventTimed s (.winnerRejected c))
        5000).game.showContinueMessage = false ∧
    (elapse (handleEventTimed s (.winnerRejected c))
        5000).continueMessageTimeout = none ∧
    (∀ d : PotentialWinner,
      (handleEventTimed s (.winnerRejected c)).game.potentialWinners.any
          (fun w => w.cardId == d.cardId) = false →
        (handleEventTimed (handleEventTimed s (.winnerRejected c))
            (.potentialWinner d)).game.showContinueMessage = false ∧
        (handleEventTimed (handleEventTimed s (.winnerRejected c))
            (.potentialWinner d)).continueMessageTimeout = some 5000) := by
  refine ⟨?_, ?_, rfl, rfl, rfl, ?_, ?_, ?_⟩
  · intro w hw
    simp [handleEventTimed, handleEvent, List.mem_filter] at hw
    exact hw.2
  · simp only [handleEventTimed, handleEvent]
    rw [List.length_filter_lt_length_iff_exists]
    rcases List.any_eq_true.mp hmem with ⟨w, hw, hwc⟩
    exact ⟨w, hw, by simp_all⟩
  · simp [elapse, handleEventTimed]
  · simp [elapse, handleEventTimed]
  · intro d hd
    simp only [handleEventTimed, handleEvent] at hd ⊢
    simp [hd]

/-- C5, witness: rejecting the only pending claim shows the message
immediately and the auto-hide clears it after 5000 ms. -/
theorem winnerRejected_continue_message_witness :
    (handleEventTimed
        ⟨{ initialGameState with potentialWinners := [⟨4, 0⟩] }, none⟩
        (.winnerRejected 4)).game.showContinueMessage = true ∧
    (elapse
        (handleEventTimed
          ⟨{ initialGameState with potentialWinners := [⟨4, 0⟩] }, none⟩
          (.winnerRejected 4)) 5000).game.showContinueMessage = false :=
  ⟨(winnerRejected_continue_message
      ⟨{ initialGameState with potentialWinners := [⟨4, 0⟩] }, none⟩ 4
      (by decide)).2.2.2.1,
   (winnerRejected_continue_message
      ⟨{ initialGameState with potentialWinners := [⟨4, 0⟩] }, none⟩ 4
      (by decide)).2.2.2.2.2.1⟩

/-- C6: the double-submit guard of handlePurchase.  A first invocation
that reaches the async purchase flow leaves isPurchasingRef set, so a
second invocation arriving before the first resolves exits at the
synchronous alreadyInFlight guard: it issues no network request, sets no
error, opens no modal, and leaves the flag as it found it — two immediate
successive invocations produce exactly one network request sequence. -/
theorem handlePurchase_single_flight (env : PurchaseEnv) (quantity : Nat)
    (h : (handlePurchaseSync false env quantity).exit = .proceed) :
    (handlePurchaseSync false env quantity).isPurchasing = true ∧
    handlePurchaseSync (handlePurchaseSync false env quantity).isPurchasing
        env quantity =
      { isPurchasing := true
        errorSet := none
        openedLoginModal := false
        exit := .alreadyInFlight } ∧
    issuesNetworkRequest
        (handlePurchaseSync
          (handlePurchaseSync false env quantity).isPurchasing
          env quantity).exit = false := by
  have hflag : (handlePurchaseSync false env quantity).isPurchasing = true := by
    simp only [handlePurchaseSync] at h ⊢
    split_ifs at h ⊢ <;> simp_all
  rw [hflag]
  exact ⟨rfl, rfl, rfl⟩

/-- C6, witness: with a logged-in, wallet-ready session and quantity 1,
the first invocation proceeds and an immediate second invocation is a
silent no-op. -/
theorem handlePurchase_single_flight_witness :
    handlePurchaseSync
        (handlePurchaseSync false ⟨true, true, true⟩ 1).isPurchasing
        ⟨true, true, true⟩ 1 =
      { isPurchasing := true
        errorSet := none
        openedLoginModal := false
        exit := .alreadyInFlight } :=
  (handlePurchase_single_flight ⟨true, true, true⟩ 1 (by decide)).2.1

/-- C7: the payment fetch wrapper issues at most two requests, at most one
of them carrying the X-PAYMENT header; and when the first response is 402
with readable payment info, signing succeeds, and the retried request is
rejected with 402 again, the wrapper returns that second 402 response as
its result — a terminal outcome handlePurchase categorises as payment
rejected — having issued exactly the two requests and no third. -/
theorem paymentFetch_at_most_one_retry (server : Bool → HttpResponse)
    (sign : PaymentInfo → Except Unit Nat) :
    (paymentFetch server sign).2.length ≤ 2 ∧
    ((paymentFetch server sign).2.filter (fun b => b)).length ≤ 1 ∧
    (∀ (requirement : PaymentInfo) (sig : Nat),
      (server false).status = 402 →
      (server false).jsonBody = some (some requirement) →
      sign requirement = .ok sig →
      (server true).status = 402 →
        paymentFetch server sign = (.ok (server true), [false, true]) ∧
        purchaseResponseOutcome (server true).status = .paymentRejected) := by
  have htrace : (paymentFetch server sign).2 = [false] ∨
      (paymentFetch server sign).2 = [false, true] := by
    by_cases h1 : (server false).status = 402
    · cases hb : (server false).jsonBody with
      | none => exact .inl (by simp [paymentFetch, h1, hb])
      | some body =>
          cases body with
          | none => exact .inl (by simp [paymentFetch, h1, hb])
          | some requirement =>
              cases hs : sign requirement with
              | error e => exact .inl (by simp [paymentFetch, h1, hb, hs])
              | ok sig => exact .inr (by simp [paymentFetch, h1, hb, hs])
    · exact .inl (by simp [paymentFetch, h1])
  refine ⟨?_, ?_, ?_⟩
  · rcases htrace with h | h <;> simp [h]
  · rcases htrace with h | h <;> simp [h]
  · intro requirement sig h1 hb hs h2
    have hres : paymentFetch server sign = (.ok (server true), [false, true]) := by
      unfold paymentFetch
      rw [if_neg (not_not_intro h1), hb]
      simp [hs]
    refine ⟨hres, ?_⟩
    rw [h2]
    rfl

/-- C7, witness: a server that answers 402 with payment info to both the
bare and the paid request produces the two-request trace ending in the
second 402. -/
theorem paymentFetch_at_most_one_retry_witness :
    paymentFetch (fun _ => ⟨402, some (some ⟨100⟩)⟩) (fun _ => .ok 1) =
      (.ok ⟨402, some (some ⟨100⟩)⟩, [false, true]) ∧
    purchaseResponseOutcome 402 = .paymentRejected :=
  (paymentFetch_at_most_one_retry (fun _ => ⟨402, some (some ⟨100⟩)⟩)
      (fun _ => .ok 1)).2.2 ⟨100⟩ 1 rfl rfl rfl rfl

/-- C8, counterexample: quantity 0 is outside the allow-list, yet the
purchase operation returns silently at the `quantity < 1` guard without
reporting any validation error. -/
theorem quantity_zero_silent_counterexample :
    fibonacciQuantities.contains 0 = false ∧
    (handlePurchaseSync false ⟨true, true, true⟩ 0).errorSet = none ∧
    (handlePurchaseSync false ⟨true, true, true⟩ 0).exit = .invalidQuantity := by
  decide

/-- C8, amended: for a logged-in session with no purchase in flight and a
quantity outside the allow-listed set, no network request is issued and
the in-flight flag is released; a quantity of at least 1 is rejected with
the synchronous invalid-quantity error message, while a quantity below 1
returns silently with no error reported. -/
theorem invalid_quantity_guard (env : PurchaseEnv) (quantity : Nat)
    (hlog : env.isLoggedIn = true)
    (hq : fibonacciQuantities.contains quantity = false) :
    issuesNetworkRequest (handlePurchaseSync false env quantity).exit = false ∧
    (handlePurchaseSync false env quantity).isPurchasing = false ∧
    (1 ≤ quantity →
      (handlePurchaseSync false env quantity).errorSet =
        some "Cantidad invalida. Opciones validas: 1, 2, 3, 5, 8, 13, 21, 34" ∧
      (handlePurchaseSync false env quantity).exit = .invalidFibQuantity) ∧
    (quantity < 1 →
      (handlePurchaseSync false env quantity).errorSet = none ∧
      (handlePurchaseSync false env quantity).exit = .invalidQuantity) := by
  by_cases hlt : quantity < 1 <;>
    simp_all [handlePurchaseSync, issuesNetworkRequest]

/-- C8, witness: quantity 4 from a logged-in session is rejected before
any network call with the invalid-quantity error. -/
theorem invalid_quantity_guard_witness :
    issuesNetworkRequest
        (handlePurchaseSync false ⟨true, true, true⟩ 4).exit = false ∧
    (handlePurchaseSync false ⟨true, true, true⟩ 4).exit =
      .invalidFibQuantity :=
  ⟨(invalid_quantity_guard ⟨true, true, true⟩ 4 rfl (by decide)).1,
   ((invalid_quantity_guard ⟨true, true, true⟩ 4 rfl (by decide)).2.2.1
      (by decide)).2⟩

/-- C9: whenever the wallet provider is absent, the accounts query throws
or returns no account, the chainId query throws, the wallet is on a chain
other than the selected network, or the balance query throws,
getUSDCBalance resolves (it catches every throw) with the skip result:
skipped is true and hasEnough holds for every amount, so the pre-check can
never block a purchase attempt in those environments. -/
theorem getUSDCBalance_degraded_never_blocks (env : WalletEnv)
    (h : env.hasProvider = false ∨
      env.accountsResult = .error () ∨
      env.accountsResult = .ok [] ∨
      env.chainIdResult = .error () ∨
      (∃ c, env.chainIdResult = .ok c ∧ c ≠ env.targetChainId) ∨
      env.balanceResult = .error ()) :
    (getUSDCBalance env).skipped = true ∧
    ∀ amount, (getUSDCBalance env).hasEnough amount = true := by
  have hall : getUSDCBalance env = skippedBalance := by
    unfold getUSDCBalance
    repeat' split
    any_goals rfl
    rcases h with h | h | h | h | ⟨c, hc, hne⟩ | h <;> simp_all
  rw [hall]
  exact ⟨rfl, fun _ => rfl⟩

/-- C9, witness: with no wallet provider the check is skipped and even a
5 USDC cost (5000000 atomic units) passes hasEnough. -/
theorem getUSDCBalance_degraded_witness :
    (getUSDCBalance ⟨false, .ok [], .ok 1, .ok 0, 43114⟩).skipped = true ∧
    (getUSDCBalance ⟨false, .ok [], .ok 1, .ok 0, 43114⟩).hasEnough 5000000
      = true :=
  ⟨(getUSDCBalance_degraded_never_blocks
      ⟨false, .ok [], .ok 1, .ok 0, 43114⟩ (.inl rfl)).1,
   (getUSDCBalance_degraded_never_blocks
      ⟨false, .ok [], .ok 1, .ok 0, 43114⟩ (.inl rfl)).2 5000000⟩

/-- C10: rejectWinner of the raw-WebSocket transport variant sends no
outbound message and no REST call; it filters the cardId out of
potentialWinners and sets showContinueMessage to true, while
lastRejectedWinner, the auto-hide timeout and every other game-state
field are left untouched. -/
theorem wsRejectWinner_local_only (s : SocketState) (cardId : Nat) :
    (wsRejectWinner s cardId).2 = [] ∧
    (wsRejectWinner s cardId).1.game.potentialWinners =
      s.game.potentialWinners.filter (fun w => w.cardId != cardId) ∧
    (wsRejectWinner s cardId).1.game.showContinueMessage = true ∧
    (wsRejectWinner s cardId).1.game.lastRejectedWinner =
      s.game.lastRejectedWinner ∧
    (wsRejectWinner s cardId).1.continueMessageTimeout =
      s.continueMessageTimeout ∧
    (wsRejectWinner s cardId).1.game.status = s.game.status ∧
    (wsRejectWinner s cardId).1.game.calledNumbers = s.game.calledNumbers ∧
    (wsRejectWinner s cardId).1.game.currentNumber = s.game.currentNumber ∧
    (wsRejectWinner s cardId).1.game.winner = s.game.winner ∧
    (wsRejectWinner s cardId).1.game.canPurchase = s.game.canPurchase ∧
    (wsRejectWinner s cardId).1.game.gameMode = s.game.gameMode :=
  ⟨rfl, rfl, rfl, rfl, rfl, rfl, rfl, rfl, rfl, rfl, rfl⟩

end UltraBingo
